import Mathlib

/-!
Verification of `googlesamples/assistant/grpc/devicetool.py`.

The tool is a thin HTTP orchestration layer: every command issues a short
sequence of GET/PUT/POST/DELETE calls and prints formatted results.  We embed
it shallowly:

* JSON values (`Json`) stand for the result of the Python call `json.loads`;
* an HTTP response body (`Body`) either parses to a `Json` value or is raw
  text on which `json.loads` raises `ValueError`;
* the authorized session is an oracle `Nat → HttpResponse` giving the response
  to the n-th HTTP call the command issues;
* each command returns a `CmdResult`: the list of requests it issued (in
  order), the lines echoed to stdout (`click.echo`), the lines printed through
  `logging.info`, and the exception it raised, if any (`PyError`).
-/

namespace Devicetool

/-- Parsed JSON values, as produced by the Python call `json.loads`.  Objects keep
their fields in insertion order, as Python dicts do. -/
inductive Json where
  | str (s : String)
  | num (n : Int)
  | bool (b : Bool)
  | null
  | arr (elems : List Json)
  | obj (fields : List (String × Json))

/-- Python dict lookup `d[key]` on an association list (first match wins;
keys are unique in every dict the tool builds). -/
def dget? : List (String × Json) → String → Option Json
  | [], _ => none
  | (k, v) :: rest, key => if k = key then some v else dget? rest key

/-- Python dict assignment `d[key] = v`: replace in place when the key is
present, append otherwise. -/
def dset : List (String × Json) → String → Json → List (String × Json)
  | [], key, v => [(key, v)]
  | (k, w) :: rest, key, v =>
      if k = key then (k, v) :: rest else (k, w) :: dset rest key v

/-- The pattern `payload.setdefault(manifest)[field] = value`: insert an empty
manifest object if absent, then set one of its fields.  (The tool only ever
stores an object under `"manifest"`, so the non-object case is unreachable.) -/
def setManifestField (payload : List (String × Json)) (field : String)
    (value : Json) : List (String × Json) :=
  match dget? payload "manifest" with
  | some (Json.obj m) => dset payload "manifest" (Json.obj (dset m field value))
  | some _ => payload
  | none => dset payload "manifest" (Json.obj [(field, value)])

mutual

/-- Rendering of a JSON value back to text (used for `r.text` of a response
whose body is structured). -/
def Json.render : Json → String
  | .str s => "\"" ++ s ++ "\""
  | .num n => toString n
  | .bool b => if b then "true" else "false"
  | .null => "null"
  | .arr xs => "[" ++ String.intercalate ", " (Json.renderList xs) ++ "]"
  | .obj fs => "\x7b" ++ String.intercalate ", " (Json.renderFields fs) ++ "\x7d"

def Json.renderList : List Json → List String
  | [] => []
  | x :: xs => Json.render x :: Json.renderList xs

def Json.renderFields : List (String × Json) → List String
  | [] => []
  | (k, v) :: fs => ("\"" ++ k ++ "\": " ++ Json.render v) :: Json.renderFields fs

end

/-- Python `str()` of a parsed-JSON value, as used by `%s` formatting.  The
tool only ever formats strings and numbers this way; for containers we reuse
the JSON rendering (the Python `repr` differs in quoting only, and no code path
of the claims reaches it). -/
def pyStr : Json → String
  | .str s => s
  | .num n => toString n
  | .bool b => if b then "True" else "False"
  | .null => "None"
  | j => Json.render j

/-- The text of an HTTP response as seen through `json.loads`: either it
parses to a JSON value, or it is raw text on which `json.loads` raises
`ValueError`. -/
inductive Body where
  | jsonBody (j : Json)
  | rawBody (text : String)

/-- The raw body text `r.text`. -/
def Body.text : Body → String
  | .jsonBody j => j.render
  | .rawBody s => s

/-- An HTTP response as the tool observes it. -/
structure HttpResponse where
  status_code : Nat
  body : Body

/-- HTTP methods the tool uses. -/
inductive Method where
  | get | put | post | delete
deriving DecidableEq

/-- An HTTP request issued through the authorized session.  `data` is the
payload passed as `data=json.dumps(payload)`, when any. -/
structure HttpRequest where
  method : Method
  url : String
  data : Option Json

/-- How a command terminates abnormally: either a `click.ClickException`
(which the CLI runner catches and prints) or an uncaught builtin exception
(`KeyError` / `TypeError` / `ValueError`). -/
inductive PyError where
  | clickException (message : String)
  | keyError (key : String)
  | typeError
  | valueError
deriving DecidableEq

/-- The newline-join of the `detail` field of each element of
`error.details`: each element must be an object with a string `detail` field;
a missing key raises `KeyError`, a non-object element or non-string detail
raises `TypeError` (from indexing or from `str.join`). -/
def detailsJoin : List Json → Except PyError (List String)
  | [] => .ok []
  | .obj f :: rest =>
      match dget? f "detail" with
      | some (.str s) => (detailsJoin rest).map (s :: ·)
      | some _ => .error .typeError
      | none => .error (.keyError "detail")
  | _ :: _ => .error .typeError

/-- Model of `failed_request_exception`: build a `ClickException` from a
failed request.  Tries to parse a structured error body; `json.loads` failing
(`ValueError`) is caught and falls back on the raw text, but a `KeyError` or
`TypeError` raised while picking the body apart is NOT caught and propagates.
The result is the exception the caller ends up raising. -/
def failed_request_exception (message : String) (r : HttpResponse) : PyError :=
  match r.body with
  | .rawBody text =>
      -- fallback on raw text response if error is not structured.
      .clickException (message ++ ": " ++ toString r.status_code ++ "\n" ++ text)
  | .jsonBody resp =>
      match resp with
      | .obj fields =>
          match dget? fields "error" with
          | none => .keyError "error"
          | some (.obj err) =>
              match dget? err "code", dget? err "message" with
              | none, _ => .keyError "code"
              | some _, none => .keyError "message"
              | some (.num code), some msgv =>
                  let base := message ++ ": " ++ toString code ++ " " ++ pyStr msgv
                  match dget? err "details" with
                  | none => .clickException base
                  | some (.arr ds) =>
                      match detailsJoin ds with
                      | .ok parts =>
                          .clickException (base ++ " " ++ String.intercalate "\n" parts)
                      | .error e => e
                  | some _ => .typeError
              | some _, some _ => .typeError
          | some _ => .typeError
      | _ => .typeError

/-- Model of `pretty_print_model`: the lines printed through
`logging.info`, paired with the exception raised, if any.  The three header
lines come from a single `%`-formatted template (so a missing header key
raises `KeyError` before anything is printed); each trait is printed on its
own line, then a blank line.  A string `traits` value is iterated character
by character, as Python does. -/
def pretty_print_model (devicemodel : Json) : List String × Option PyError :=
  match devicemodel with
  | .obj fields =>
      match dget? fields "deviceModelId" with
      | none => ([], some (.keyError "deviceModelId"))
      | some mid =>
      match dget? fields "projectId" with
      | none => ([], some (.keyError "projectId"))
      | some pid =>
      match dget? fields "deviceType" with
      | none => ([], some (.keyError "deviceType"))
      | some dt =>
      let header := ["Device Model Id: " ++ pyStr mid,
                     "        Project Id: " ++ pyStr pid,
                     "        Device Type: " ++ pyStr dt]
      match dget? fields "traits" with
      | none => (header, some (.keyError "traits"))
      | some (.arr traits) =>
          (header ++ traits.map (fun t => "        Trait " ++ pyStr t) ++ [""], none)
      | some (.str s) =>
          (header ++ s.toList.map (fun c => "        Trait " ++ String.singleton c) ++ [""],
           none)
      | some _ => (header, some .typeError)
  | _ => ([], some .typeError)

/-- Model of `pretty_print_device`: id line, then nickname and model lines
when the keys are present, then a blank line. -/
def pretty_print_device (device : Json) : List String × Option PyError :=
  match device with
  | .obj fields =>
      match dget? fields "id" with
      | none => ([], some (.keyError "id"))
      | some idv =>
          (["Device Instance Id: " ++ pyStr idv]
            ++ (match dget? fields "nickname" with
                | some nv => ["    Nickname: " ++ pyStr nv]
                | none => [])
            ++ (match dget? fields "modelId" with
                | some mv => ["    Model: " ++ pyStr mv]
                | none => [])
            ++ [""], none)
  | _ => ([], some .typeError)

/-- The context object `cli` stores for the subcommands: the base API URL and
the resolved project id. -/
structure Ctx where
  api_url : String
  project_id : String

/-- What a command did: the HTTP requests it issued (in order), the lines it
echoed to stdout with `click.echo`, the lines it printed with `logging.info`,
and the exception it raised, if any. -/
structure CmdResult where
  requests : List HttpRequest
  echoed : List String
  logged : List String
  error : Option PyError

/-- The `register-model` payload dict, built exactly as the source builds it:
three unconditional fields, then `traits` when at least one `--trait` was
given, then the manifest fields for each truthy option (Python string
truthiness: non-empty; `description` may also be absent entirely). -/
def modelPayload (ctx : Ctx) (model type : String) (trait : List String)
    (manufacturer product_name : String) (description : Option String) :
    List (String × Json) :=
  let payload : List (String × Json) :=
    [("device_model_id", .str model),
     ("project_id", .str ctx.project_id),
     ("device_type", .str ("action.devices.types." ++ type))]
  let payload := if trait ≠ [] then dset payload "traits" (.arr (trait.map .str))
                 else payload
  let payload := if manufacturer ≠ "" then
                   setManifestField payload "manufacturer" (.str manufacturer)
                 else payload
  let payload := if product_name ≠ "" then
                   setManifestField payload "productName" (.str product_name)
                 else payload
  match description with
  | some d => if d ≠ "" then setManifestField payload "deviceDescription" (.str d)
              else payload
  | none => payload

/-- The shared tail of `register_model` after the mutating call: a non-200
response is a hard failure, a 200 response echoes the confirmation line. -/
def finishModel (model : String) (reqs : List HttpRequest) (ech : List String)
    (r : HttpResponse) : CmdResult :=
  if r.status_code ≠ 200 then
    ⟨reqs, ech, [], some (failed_request_exception "Failed to register model" r)⟩
  else
    ⟨reqs, ech ++ ["Model " ++ model ++ " successfully registered"], [], none⟩

/-- The register-model command: GET the model URL; 200 means update (PUT with the full
payload), 400/404 mean create (POST to the collection URL), anything else
raises through the error translator.  `oracle n` is the response to the n-th
HTTP call. -/
def register_model (oracle : Nat → HttpResponse) (ctx : Ctx)
    (model type : String) (trait : List String)
    (manufacturer product_name : String) (description : Option String) :
    CmdResult :=
  let model_base_url := ctx.api_url ++ "/deviceModels"
  let model_url := model_base_url ++ "/" ++ model
  let payload := Json.obj (modelPayload ctx model type trait manufacturer
                            product_name description)
  let getReq : HttpRequest := ⟨.get, model_url, none⟩
  let r := oracle 0
  if r.status_code = 200 then
    finishModel model [getReq, ⟨.put, model_url, some payload⟩]
      ["Updating existing device model: " ++ model] (oracle 1)
  else if r.status_code = 400 ∨ r.status_code = 404 then
    finishModel model [getReq, ⟨.post, model_base_url, some payload⟩]
      ["Creating new device model"] (oracle 1)
  else
    ⟨[getReq], [], [], some (failed_request_exception "Unknown error occurred" r)⟩

/-- The `register-device` payload dict: id and model id, plus the nickname
when it is truthy. -/
def devicePayload (device model : String) (nickname : Option String) :
    List (String × Json) :=
  let payload : List (String × Json) := [("id", .str device), ("model_id", .str model)]
  match nickname with
  | some n => if n ≠ "" then dset payload "nickname" (.str n) else payload
  | none => payload

/-- The shared tail of `register_device` after the mutating call. -/
def finishDevice (device : String) (reqs : List HttpRequest) (ech : List String)
    (r : HttpResponse) : CmdResult :=
  if r.status_code ≠ 200 then
    ⟨reqs, ech, [], some (failed_request_exception "Failed to register device" r)⟩
  else
    ⟨reqs, ech ++ ["Device instance " ++ device ++ " successfully registered"], [], none⟩

/-- The register-device command: GET the device URL; 200 means recreate (DELETE the
device URL — its response is ignored by the source — then POST to the
collection URL), 400/404 mean create (POST), anything else raises through the
error translator. -/
def register_device (oracle : Nat → HttpResponse) (ctx : Ctx)
    (device model : String) (nickname : Option String) : CmdResult :=
  let device_base_url := ctx.api_url ++ "/devices"
  let device_url := device_base_url ++ "/" ++ device
  let payload := Json.obj (devicePayload device model nickname)
  let getReq : HttpRequest := ⟨.get, device_url, none⟩
  let r := oracle 0
  if r.status_code = 200 then
    finishDevice device
      [getReq, ⟨.delete, device_url, none⟩, ⟨.post, device_base_url, some payload⟩]
      ["Updating existing device: " ++ device] (oracle 2)
  else if r.status_code = 400 ∨ r.status_code = 404 then
    finishDevice device [getReq, ⟨.post, device_base_url, some payload⟩]
      ["Creating new device"] (oracle 1)
  else
    ⟨[getReq], [], [],
     some (failed_request_exception "Failed to check existing device" r)⟩

/-- The composed `register` command: `ctx.invoke(register_model, ...)` then
`ctx.invoke(register_device, ...)`.  An exception from the model upsert
propagates, so the device upsert runs only when the model upsert returned
normally; its HTTP calls then continue on the same session. -/
def register (oracle : Nat → HttpResponse) (ctx : Ctx) (model type : String)
    (trait : List String) (manufacturer product_name : String)
    (description : Option String) (device : String) (nickname : Option String) :
    CmdResult :=
  let rm := register_model oracle ctx model type trait manufacturer
              product_name description
  match rm.error with
  | some _ => rm
  | none =>
      let rd := register_device (fun n => oracle (n + rm.requests.length)) ctx
                  device model nickname
      ⟨rm.requests ++ rd.requests, rm.echoed ++ rd.echoed,
       rm.logged ++ rd.logged, rd.error⟩

/-- The mutually exclusive `--model`/`--device` selector of `get` and `list`:
the flag value is the resource collection name. -/
inductive Resource where
  | deviceModels | devices
deriving DecidableEq

/-- The collection path segment the flag stands for. -/
def Resource.path : Resource → String
  | .deviceModels => "deviceModels"
  | .devices => "devices"

/-- The get command: GET on the resource-and-id URL; non-200 raises through the error
translator; on 200 the body is parsed (`json.loads` raises `ValueError` on
non-JSON text, uncaught here) and pretty-printed. -/
def get (oracle : Nat → HttpResponse) (ctx : Ctx) (resource : Resource)
    (id : String) : CmdResult :=
  let url := ctx.api_url ++ "/" ++ resource.path ++ "/" ++ id
  let getReq : HttpRequest := ⟨.get, url, none⟩
  let r := oracle 0
  if r.status_code ≠ 200 then
    ⟨[getReq], [], [], some (failed_request_exception "Failed to get resource" r)⟩
  else
    match r.body with
    | .rawBody _ => ⟨[getReq], [], [], some .valueError⟩
    | .jsonBody response =>
        let pp := match resource with
          | .deviceModels => pretty_print_model response
          | .devices => pretty_print_device response
        ⟨[getReq], [], pp.1, pp.2⟩

/-- Print every item of a collection in order, stopping at the first
exception and keeping the lines printed up to that point. -/
def printAll (pp : Json → List String × Option PyError) :
    List Json → List String × Option PyError
  | [] => ([], none)
  | x :: xs =>
      match pp x with
      | (ls, some e) => (ls, some e)
      | (ls, none) =>
          let rest := printAll pp xs
          (ls ++ rest.1, rest.2)

/-- The list command: GET on the collection URL; non-200 raises through the error translator; on
200 the body is parsed and the collection field (named after the resource) is
iterated, pretty-printing each item.  A missing collection field raises
`KeyError`; a non-object body or non-list collection raises `TypeError`
(except that iterating an empty string iterates nothing). -/
def list (oracle : Nat → HttpResponse) (ctx : Ctx) (resource : Resource) :
    CmdResult :=
  let url := ctx.api_url ++ "/" ++ resource.path
  let getReq : HttpRequest := ⟨.get, url, none⟩
  let r := oracle 0
  if r.status_code ≠ 200 then
    ⟨[getReq], [], [], some (failed_request_exception "Failed to list resources" r)⟩
  else
    match r.body with
    | .rawBody _ => ⟨[getReq], [], [], some .valueError⟩
    | .jsonBody response =>
        match response with
        | .obj fields =>
            match dget? fields resource.path with
            | none => ⟨[getReq], [], [], some (.keyError resource.path)⟩
            | some (.arr items) =>
                let pp := printAll
                  (match resource with
                   | .deviceModels => pretty_print_model
                   | .devices => pretty_print_device) items
                ⟨[getReq], [], pp.1, pp.2⟩
            | some (.str s) =>
                if s.isEmpty then ⟨[getReq], [], [], none⟩
                else ⟨[getReq], [], [], some .typeError⟩
            | some _ => ⟨[getReq], [], [], some .typeError⟩
        | _ => ⟨[getReq], [], [], some .typeError⟩

/-- Outcome of the project-resolution step of `cli`: the resolved project id
value (and which client-secret file, if any, was read to find it), or the
`ClickException` raised when no source yields one. -/
inductive ResolveResult where
  | ok (project : Json) (consulted : Option String)
  | configError (client_secret : String)

/-- The client-secret filename `cli` reads: the `--client-secret` path when
given, else `client_secret_<client_id>.json` derived from the credential. -/
def clientSecretName (client_secret : Option String) (client_id : String) :
    String :=
  match client_secret with
  | some f => f
  | none => "client_secret_" ++ client_id ++ ".json"

/-- The project-resolution logic of `cli`: an explicit `--project` is used
unchanged; otherwise the client-secret file named by `clientSecretName` is
read and parsed and the `project_id` field of its `installed` object extracted.
`except Exception` turns every failure (missing file, invalid JSON, missing
key, wrong shape) into the configuration `ClickException`.  `fs` models the
filesystem: `none` means the file cannot be opened, `rawBody` means its
contents fail to parse as JSON. -/
def resolve_project (project : Option String) (client_secret : Option String)
    (client_id : String) (fs : String → Option Body) : ResolveResult :=
  match project with
  | some p => .ok (.str p) none
  | none =>
      let cs := clientSecretName client_secret client_id
      match fs cs with
      | none => .configError cs
      | some (.rawBody _) => .configError cs
      | some (.jsonBody secret) =>
          match secret with
          | .obj fields =>
              match dget? fields "installed" with
              | some (.obj inst) =>
                  match dget? inst "project_id" with
                  | some v => .ok v (some cs)
                  | none => .configError cs
              | _ => .configError cs
          | _ => .configError cs

/-- Lookup of one field of the `manifest` sub-dict of a payload (the shape
the register-model payload stores manufacturer, product name and
description under). -/
def manifestField (payload : List (String × Json)) (field : String) :
    Option Json :=
  match dget? payload "manifest" with
  | some (Json.obj m) => dget? m field
  | _ => none

/-- A concrete context for the worked examples below: the API URL `cli`
builds for project `p` on the default endpoint. -/
def exCtx : Ctx :=
  ⟨"https://embeddedassistant.googleapis.com/v1alpha2/projects/p", "p"⟩

/-- The 200 body of the `get --model foo` example. -/
def exModelBody : Body := .jsonBody (.obj
  [("deviceModelId", .str "foo"), ("projectId", .str "p"),
   ("deviceType", .str "t"), ("traits", .arr [.str "a", .str "b"])])

/-- A model body with the header fields but no `traits` field. -/
def exNoTraitsBody : Body := .jsonBody (.obj
  [("deviceModelId", .str "foo"), ("projectId", .str "p"),
   ("deviceType", .str "t")])

/-- The 200 body of the `list --device` example. -/
def exDevicesBody : Body := .jsonBody (.obj
  [("devices", .arr [.obj [("id", .str "d1")],
                     .obj [("id", .str "d2"), ("nickname", .str "n")]])])

/-- An oracle answering every call with the same response. -/
def constOracle (status : Nat) (b : Body) : Nat → HttpResponse :=
  fun _ => ⟨status, b⟩

/-- An oracle for the update paths: the initial GET answers 200, every later
call answers with the given response. -/
def updateOracle (later : HttpResponse) : Nat → HttpResponse :=
  fun n => if n = 0 then ⟨200, .jsonBody (.obj [])⟩ else later

/-! ### Helper lemmas -/

theorem finishModel_requests (m : String) (reqs : List HttpRequest)
    (ech : List String) (r : HttpResponse) :
    (finishModel m reqs ech r).requests = reqs := by
  unfold finishModel; split <;> rfl

theorem finishModel_error_of_ne (m : String) (reqs : List HttpRequest)
    (ech : List String) (r : HttpResponse) (h : r.status_code ≠ 200) :
    (finishModel m reqs ech r).error =
      some (failed_request_exception "Failed to register model" r) := by
  unfold finishModel; rw [if_pos h]

theorem finishModel_of_ok (m : String) (reqs : List HttpRequest)
    (ech : List String) (r : HttpResponse) (h : r.status_code = 200) :
    (finishModel m reqs ech r).error = none ∧
    (finishModel m reqs ech r).echoed =
      ech ++ ["Model " ++ m ++ " successfully registered"] := by
  unfold finishModel
  rw [if_neg (by simp [h])]
  exact ⟨rfl, rfl⟩

theorem finishDevice_requests (d : String) (reqs : List HttpRequest)
    (ech : List String) (r : HttpResponse) :
    (finishDevice d reqs ech r).requests = reqs := by
  unfold finishDevice; split <;> rfl

theorem finishDevice_error_of_ne (d : String) (reqs : List HttpRequest)
    (ech : List String) (r : HttpResponse) (h : r.status_code ≠ 200) :
    (finishDevice d reqs ech r).error =
      some (failed_request_exception "Failed to register device" r) := by
  unfold finishDevice; rw [if_pos h]

theorem finishDevice_of_ok (d : String) (reqs : List HttpRequest)
    (ech : List String) (r : HttpResponse) (h : r.status_code = 200) :
    (finishDevice d reqs ech r).error = none ∧
    (finishDevice d reqs ech r).echoed =
      ech ++ ["Device instance " ++ d ++ " successfully registered"] := by
  unfold finishDevice
  rw [if_neg (by simp [h])]
  exact ⟨rfl, rfl⟩

theorem register_model_eq_update (oracle : Nat → HttpResponse) (ctx : Ctx)
    (model type : String) (trait : List String)
    (manufacturer product_name : String) (description : Option String)
    (h : (oracle 0).status_code = 200) :
    register_model oracle ctx model type trait manufacturer product_name
        description =
      finishModel model
        [⟨.get, ctx.api_url ++ "/deviceModels" ++ "/" ++ model, none⟩,
         ⟨.put, ctx.api_url ++ "/deviceModels" ++ "/" ++ model,
          some (Json.obj (modelPayload ctx model type trait manufacturer
                            product_name description))⟩]
        ["Updating existing device model: " ++ model] (oracle 1) := by
  simp [register_model, h]

theorem register_model_eq_create (oracle : Nat → HttpResponse) (ctx : Ctx)
    (model type : String) (trait : List String)
    (manufacturer product_name : String) (description : Option String)
    (h : (oracle 0).status_code = 400 ∨ (oracle 0).status_code = 404) :
    register_model oracle ctx model type trait manufacturer product_name
        description =
      finishModel model
        [⟨.get, ctx.api_url ++ "/deviceModels" ++ "/" ++ model, none⟩,
         ⟨.post, ctx.api_url ++ "/deviceModels",
          some (Json.obj (modelPayload ctx model type trait manufacturer
                            product_name description))⟩]
        ["Creating new device model"] (oracle 1) := by
  rcases h with h | h <;> simp [register_model, h]

theorem register_model_eq_error (oracle : Nat → HttpResponse) (ctx : Ctx)
    (model type : String) (trait : List String)
    (manufacturer product_name : String) (description : Option String)
    (h200 : (oracle 0).status_code ≠ 200) (h400 : (oracle 0).status_code ≠ 400)
    (h404 : (oracle 0).status_code ≠ 404) :
    register_model oracle ctx model type trait manufacturer product_name
        description =
      ⟨[⟨.get, ctx.api_url ++ "/deviceModels" ++ "/" ++ model, none⟩], [], [],
       some (failed_request_exception "Unknown error occurred" (oracle 0))⟩ := by
  simp [register_model, h200, h400, h404]

theorem register_device_eq_update (oracle : Nat → HttpResponse) (ctx : Ctx)
    (device model : String) (nickname : Option String)
    (h : (oracle 0).status_code = 200) :
    register_device oracle ctx device model nickname =
      finishDevice device
        [⟨.get, ctx.api_url ++ "/devices" ++ "/" ++ device, none⟩,
         ⟨.delete, ctx.api_url ++ "/devices" ++ "/" ++ device, none⟩,
         ⟨.post, ctx.api_url ++ "/devices",
          some (Json.obj (devicePayload device model nickname))⟩]
        ["Updating existing device: " ++ device] (oracle 2) := by
  simp [register_device, h]

theorem register_device_eq_create (oracle : Nat → HttpResponse) (ctx : Ctx)
    (device model : String) (nickname : Option String)
    (h : (oracle 0).status_code = 400 ∨ (oracle 0).status_code = 404) :
    register_device oracle ctx device model nickname =
      finishDevice device
        [⟨.get, ctx.api_url ++ "/devices" ++ "/" ++ device, none⟩,
         ⟨.post, ctx.api_url ++ "/devices",
          some (Json.obj (devicePayload device model nickname))⟩]
        ["Creating new device"] (oracle 1) := by
  rcases h with h | h <;> simp [register_device, h]

theorem register_device_eq_error (oracle : Nat → HttpResponse) (ctx : Ctx)
    (device model : String) (nickname : Option String)
    (h200 : (oracle 0).status_code ≠ 200) (h400 : (oracle 0).status_code ≠ 400)
    (h404 : (oracle 0).status_code ≠ 404) :
    register_device oracle ctx device model nickname =
      ⟨[⟨.get, ctx.api_url ++ "/devices" ++ "/" ++ device, none⟩], [], [],
       some (failed_request_exception "Failed to check existing device"
               (oracle 0))⟩ := by
  simp [register_device, h200, h400, h404]

/-! ### Claim theorems -/

/-- C2: the error translator formats a failed response whose body parses as a
structured JSON error (with `error.code` and `error.message`) as
`<message>: <code> <serverMessage>`, appending the newline-join of
`error.details[].detail` when `details` is present, and falls back to
`<message>: <httpStatus>\n<rawBody>` when the body is not valid JSON; in
particular the 404 example message ends with `404 not found` and the raw
`oops` example with status 500 ends with `500\noops`. -/
theorem failed_request_exception_spec :
    (∀ (message : String) (status : Nat) (fields err : List (String × Json))
       (code : Int) (msgv : Json),
       dget? fields "error" = some (.obj err) →
       dget? err "code" = some (.num code) →
       dget? err "message" = some msgv →
       dget? err "details" = none →
       failed_request_exception message ⟨status, .jsonBody (.obj fields)⟩ =
         .clickException (message ++ ": " ++ toString code ++ " " ++ pyStr msgv)) ∧
    (∀ (message : String) (status : Nat) (fields err : List (String × Json))
       (code : Int) (msgv : Json) (ds : List Json) (parts : List String),
       dget? fields "error" = some (.obj err) →
       dget? err "code" = some (.num code) →
       dget? err "message" = some msgv →
       dget? err "details" = some (.arr ds) →
       detailsJoin ds = .ok parts →
       failed_request_exception message ⟨status, .jsonBody (.obj fields)⟩ =
         .clickException (message ++ ": " ++ toString code ++ " " ++ pyStr msgv
           ++ " " ++ String.intercalate "\n" parts)) ∧
    (∀ (message text : String) (status : Nat),
       failed_request_exception message ⟨status, .rawBody text⟩ =
         .clickException (message ++ ": " ++ toString status ++ "\n" ++ text)) ∧
    (failed_request_exception "Failed to get resource"
        ⟨404, .jsonBody (.obj [("error",
           .obj [("code", .num 404), ("message", .str "not found")])])⟩ =
       .clickException ("Failed to get resource: " ++ "404 not found")) ∧
    (failed_request_exception "Failed to get resource" ⟨500, .rawBody "oops"⟩ =
       .clickException ("Failed to get resource: " ++ "500\noops")) := by
  refine ⟨?_, ?_, ?_, rfl, rfl⟩
  · intro message status fields err code msgv h1 h2 h3 h4
    simp [failed_request_exception, h1, h2, h3, h4]
  · intro message status fields err code msgv ds parts h1 h2 h3 h4 h5
    simp [failed_request_exception, h1, h2, h3, h4, h5]
  · intro message text status
    rfl

/-- C2 witness: the general structured and raw branches evaluated at concrete
inputs. -/
theorem failed_request_exception_spec_witness :
    failed_request_exception "m"
        ⟨418, .jsonBody (.obj [("error",
           .obj [("code", .num 7), ("message", .str "x")])])⟩ =
      .clickException "m: 7 x" ∧
    failed_request_exception "m" ⟨503, .rawBody "raw"⟩ =
      .clickException "m: 503\nraw" :=
  ⟨failed_request_exception_spec.1 "m" 418
      [("error", .obj [("code", .num 7), ("message", .str "x")])]
      [("code", .num 7), ("message", .str "x")] 7 (.str "x") rfl rfl rfl rfl,
   failed_request_exception_spec.2.2.1 "m" "raw" 503⟩

/-- C8: the raw-body fallback of the error translator is taken only when
`json.loads` fails; a body that is valid JSON but lacks the `error` object —
such as the empty object — makes `failed_request_exception` raise an uncaught
`KeyError` instead of returning a `ClickException` in either documented
format. -/
theorem failed_request_exception_empty_object (message : String) (status : Nat) :
    failed_request_exception message ⟨status, .jsonBody (.obj [])⟩ =
      .keyError "error" := rfl

/-- C8 witness: the empty-object body at a concrete message and status. -/
theorem failed_request_exception_empty_object_witness :
    failed_request_exception "Failed to get resource"
        ⟨400, .jsonBody (.obj [])⟩ = .keyError "error" :=
  failed_request_exception_empty_object "Failed to get resource" 400

/-- C3: `get --model foo` on a 200 response carrying the example model body
prints the id, project-id and device-type lines, one line per trait (two),
and a final blank line — five content lines ending in a blank line — and
raises nothing. -/
theorem get_model_example :
    (get (constOracle 200 exModelBody) exCtx .deviceModels "foo").logged =
      ["Device Model Id: foo", "        Project Id: p",
       "        Device Type: t", "        Trait a", "        Trait b", ""] ∧
    (get (constOracle 200 exModelBody) exCtx .deviceModels "foo").error = none ∧
    (get (constOracle 200 exModelBody) exCtx .deviceModels "foo").logged =
      ["Device Model Id: foo", "        Project Id: p", "        Device Type: t"]
        ++ (["a", "b"].map (fun t => "        Trait " ++ t)) ++ [""] ∧
    ((get (constOracle 200 exModelBody) exCtx .deviceModels "foo").logged.filter
        (fun l => l ≠ "")).length = 5 ∧
    (get (constOracle 200 exModelBody) exCtx .deviceModels "foo").logged.getLast? =
      some "" := by
  refine ⟨rfl, rfl, rfl, by decide, rfl⟩

/-- C7: `list --device` on a 200 response carrying the example collection
prints one block per element of `devices` in order; each block starts with
the device id line and ends with a blank line, and exactly the second block
contains a nickname line. -/
theorem list_devices_example :
    (list (constOracle 200 exDevicesBody) exCtx .devices).logged =
      ["Device Instance Id: d1", "", "Device Instance Id: d2",
       "    Nickname: n", ""] ∧
    (list (constOracle 200 exDevicesBody) exCtx .devices).error = none ∧
    ((list (constOracle 200 exDevicesBody) exCtx .devices).logged.count
        "    Nickname: n") = 1 ∧
    (list (constOracle 200 exDevicesBody) exCtx .devices).logged.take 2 =
      ["Device Instance Id: d1", ""] ∧
    (list (constOracle 200 exDevicesBody) exCtx .devices).logged.drop 2 =
      ["Device Instance Id: d2", "    Nickname: n", ""] := by
  refine ⟨rfl, rfl, by decide, rfl, rfl⟩

/-- C9: the formatted-error path of `get` and `list` applies only to non-200
statuses: a 200 response whose body is not valid JSON makes both commands
raise an uncaught `ValueError` (printing nothing), and `get --model` on a 200
JSON object missing the `traits` field raises an uncaught `KeyError` — in
neither case is a `ClickException` message produced. -/
theorem get_list_unhandled_on_200 :
    (get (constOracle 200 (.rawBody "oops")) exCtx .deviceModels "foo").error =
      some .valueError ∧
    (get (constOracle 200 (.rawBody "oops")) exCtx .deviceModels "foo").logged =
      [] ∧
    (get (constOracle 200 exNoTraitsBody) exCtx .deviceModels "foo").error =
      some (.keyError "traits") ∧
    (list (constOracle 200 (.rawBody "oops")) exCtx .devices).error =
      some .valueError :=
  ⟨rfl, rfl, rfl, rfl⟩

/-- C1: every upsert (register-model and register-device) first issues GET on
the resource URL; a 200 GET takes the update path (model: PUT of the full
payload to the same URL; device: DELETE then POST to the collection URL); a
400 or 404 GET takes the create path (POST to the collection URL); any other
GET status raises the error the translator formats from the response; after
the mutating call a non-200 status raises a hard failure and a 200 status
echoes the success confirmation line. -/
theorem upsert_protocol (oracle : Nat → HttpResponse) (ctx : Ctx)
    (model type : String) (trait : List String)
    (manufacturer product_name : String) (description : Option String)
    (device dmodel : String) (nickname : Option String) :
    ((register_model oracle ctx model type trait manufacturer product_name
        description).requests.head? =
      some ⟨.get, ctx.api_url ++ "/deviceModels" ++ "/" ++ model, none⟩) ∧
    ((oracle 0).status_code = 200 →
      (register_model oracle ctx model type trait manufacturer product_name
          description).requests =
        [⟨.get, ctx.api_url ++ "/deviceModels" ++ "/" ++ model, none⟩,
         ⟨.put, ctx.api_url ++ "/deviceModels" ++ "/" ++ model,
          some (Json.obj (modelPayload ctx model type trait manufacturer
                            product_name description))⟩]) ∧
    ((oracle 0).status_code = 400 ∨ (oracle 0).status_code = 404 →
      (register_model oracle ctx model type trait manufacturer product_name
          description).requests =
        [⟨.get, ctx.api_url ++ "/deviceModels" ++ "/" ++ model, none⟩,
         ⟨.post, ctx.api_url ++ "/deviceModels",
          some (Json.obj (modelPayload ctx model type trait manufacturer
                            product_name description))⟩]) ∧
    ((oracle 0).status_code ≠ 200 → (oracle 0).status_code ≠ 400 →
     (oracle 0).status_code ≠ 404 →
      register_model oracle ctx model type trait manufacturer product_name
          description =
        ⟨[⟨.get, ctx.api_url ++ "/deviceModels" ++ "/" ++ model, none⟩], [], [],
         some (failed_request_exception "Unknown error occurred" (oracle 0))⟩) ∧
    ((oracle 0).status_code = 200 ∨ (oracle 0).status_code = 400 ∨
       (oracle 0).status_code = 404 →
      ((oracle 1).status_code ≠ 200 →
        (register_model oracle ctx model type trait manufacturer product_name
            description).error =
          some (failed_request_exception "Failed to register model"
                  (oracle 1))) ∧
      ((oracle 1).status_code = 200 →
        (register_model oracle ctx model type trait manufacturer product_name
            description).error = none ∧
        (register_model oracle ctx model type trait manufacturer product_name
            description).echoed.getLast? =
          some ("Model " ++ model ++ " successfully registered"))) ∧
    ((register_device oracle ctx device dmodel nickname).requests.head? =
      some ⟨.get, ctx.api_url ++ "/devices" ++ "/" ++ device, none⟩) ∧
    ((oracle 0).status_code = 200 →
      (register_device oracle ctx device dmodel nickname).requests =
        [⟨.get, ctx.api_url ++ "/devices" ++ "/" ++ device, none⟩,
         ⟨.delete, ctx.api_url ++ "/devices" ++ "/" ++ device, none⟩,
         ⟨.post, ctx.api_url ++ "/devices",
          some (Json.obj (devicePayload device dmodel nickname))⟩]) ∧
    ((oracle 0).status_code = 400 ∨ (oracle 0).status_code = 404 →
      (register_device oracle ctx device dmodel nickname).requests =
        [⟨.get, ctx.api_url ++ "/devices" ++ "/" ++ device, none⟩,
         ⟨.post, ctx.api_url ++ "/devices",
          some (Json.obj (devicePayload device dmodel nickname))⟩]) ∧
    ((oracle 0).status_code ≠ 200 → (oracle 0).status_code ≠ 400 →
     (oracle 0).status_code ≠ 404 →
      register_device oracle ctx device dmodel nickname =
        ⟨[⟨.get, ctx.api_url ++ "/devices" ++ "/" ++ device, none⟩], [], [],
         some (failed_request_exception "Failed to check existing device"
                 (oracle 0))⟩) ∧
    ((oracle 0).status_code = 200 →
      ((oracle 2).status_code ≠ 200 →
        (register_device oracle ctx device dmodel nickname).error =
          some (failed_request_exception "Failed to register device"
                  (oracle 2))) ∧
      ((oracle 2).status_code = 200 →
        (register_device oracle ctx device dmodel nickname).error = none ∧
        (register_device oracle ctx device dmodel nickname).echoed.getLast? =
          some ("Device instance " ++ device ++ " successfully registered"))) ∧
    ((oracle 0).status_code = 400 ∨ (oracle 0).status_code = 404 →
      ((oracle 1).status_code ≠ 200 →
        (register_device oracle ctx device dmodel nickname).error =
          some (failed_request_exception "Failed to register device"
                  (oracle 1))) ∧
      ((oracle 1).status_code = 200 →
        (register_device oracle ctx device dmodel nickname).error = none ∧
        (register_device oracle ctx device dmodel nickname).echoed.getLast? =
          some ("Device instance " ++ device ++ " successfully registered"))) := by
  refine ⟨?_, ?_, ?_, ?_, ?_, ?_, ?_, ?_, ?_, ?_, ?_⟩
  · by_cases h0 : (oracle 0).status_code = 200
    · rw [register_model_eq_update oracle ctx model type trait manufacturer
            product_name description h0, finishModel_requests]
      rfl
    · by_cases h4 : (oracle 0).status_code = 400 ∨ (oracle 0).status_code = 404
      · rw [register_model_eq_create oracle ctx model type trait manufacturer
              product_name description h4, finishModel_requests]
        rfl
      · push_neg at h4
        rw [register_model_eq_error oracle ctx model type trait manufacturer
              product_name description h0 h4.1 h4.2]
        rfl
  · intro h0
    rw [register_model_eq_update oracle ctx model type trait manufacturer
          product_name description h0, finishModel_requests]
  · intro h4
    rw [register_model_eq_create oracle ctx model type trait manufacturer
          product_name description h4, finishModel_requests]
  · intro h200 h400 h404
    exact register_model_eq_error oracle ctx model type trait manufacturer
      product_name description h200 h400 h404
  · intro hg
    constructor
    · intro h1
      rcases hg with h0 | h0
      · rw [register_model_eq_update oracle ctx model type trait manufacturer
              product_name description h0]
        exact finishModel_error_of_ne _ _ _ _ h1
      · rw [register_model_eq_create oracle ctx model type trait manufacturer
              product_name description h0]
        exact finishModel_error_of_ne _ _ _ _ h1
    · intro h1
      rcases hg with h0 | h0
      · rw [register_model_eq_update oracle ctx model type trait manufacturer
              product_name description h0]
        exact ⟨(finishModel_of_ok _ _ _ _ h1).1,
               by rw [(finishModel_of_ok _ _ _ _ h1).2]; rfl⟩
      · rw [register_model_eq_create oracle ctx model type trait manufacturer
              product_name description h0]
        exact ⟨(finishModel_of_ok _ _ _ _ h1).1,
               by rw [(finishModel_of_ok _ _ _ _ h1).2]; rfl⟩
  · by_cases h0 : (oracle 0).status_code = 200
    · rw [register_device_eq_update oracle ctx device dmodel nickname h0,
          finishDevice_requests]
      rfl
    · by_cases h4 : (oracle 0).status_code = 400 ∨ (oracle 0).status_code = 404
      · rw [register_device_eq_create oracle ctx device dmodel nickname h4,
            finishDevice_requests]
        rfl
      · push_neg at h4
        rw [register_device_eq_error oracle ctx device dmodel nickname h0
              h4.1 h4.2]
        rfl
  · intro h0
    rw [register_device_eq_update oracle ctx device dmodel nickname h0,
        finishDevice_requests]
  · intro h4
    rw [register_device_eq_create oracle ctx device dmodel nickname h4,
        finishDevice_requests]
  · intro h200 h400 h404
    exact register_device_eq_error oracle ctx device dmodel nickname h200
      h400 h404
  · intro h0
    constructor
    · intro h2
      rw [register_device_eq_update oracle ctx device dmodel nickname h0]
      exact finishDevice_error_of_ne _ _ _ _ h2
    · intro h2
      rw [register_device_eq_update oracle ctx device dmodel nickname h0]
      exact ⟨(finishDevice_of_ok _ _ _ _ h2).1,
             by rw [(finishDevice_of_ok _ _ _ _ h2).2]; rfl⟩
  · intro h4
    constructor
    · intro h1
      rw [register_device_eq_create oracle ctx device dmodel nickname h4]
      exact finishDevice_error_of_ne _ _ _ _ h1
    · intro h1
      rw [register_device_eq_create oracle ctx device dmodel nickname h4]
      exact ⟨(finishDevice_of_ok _ _ _ _ h1).1,
             by rw [(finishDevice_of_ok _ _ _ _ h1).2]; rfl⟩

/-- C1 witness: the update paths run at an all-200 oracle, and the error
branch of the model upsert needs nothing beyond the GET. -/
theorem upsert_protocol_witness :
    (register_model (constOracle 200 (.jsonBody (.obj []))) exCtx "m" "LIGHT"
        [] "man" "pn" none).error = none ∧
    (register_model (constOracle 200 (.jsonBody (.obj []))) exCtx "m" "LIGHT"
        [] "man" "pn" none).requests =
      [⟨.get, exCtx.api_url ++ "/deviceModels" ++ "/" ++ "m", none⟩,
       ⟨.put, exCtx.api_url ++ "/deviceModels" ++ "/" ++ "m",
        some (Json.obj (modelPayload exCtx "m" "LIGHT" [] "man" "pn" none))⟩] ∧
    (register_device (constOracle 200 (.jsonBody (.obj []))) exCtx "d" "m"
        none).error = none := by
  have h := upsert_protocol (constOracle 200 (.jsonBody (.obj []))) exCtx "m"
    "LIGHT" [] "man" "pn" none "d" "m" none
  exact ⟨((h.2.2.2.2.1 (Or.inl rfl)).2 rfl).1, h.2.1 rfl,
         ((h.2.2.2.2.2.2.2.2.2.1 rfl).2 rfl).1⟩

/-- C4: the update path of the device upsert is not atomic: whenever the initial
GET returns 200 and the recreating POST (the third call, issued after the
DELETE) does not return 200, the command has already issued the DELETE for
the existing device, issues nothing after the failed POST, and raises — so
the previously existing device stays deleted while the operation errors. -/
theorem register_device_update_not_atomic (oracle : Nat → HttpResponse)
    (ctx : Ctx) (device model : String) (nickname : Option String)
    (hget : (oracle 0).status_code = 200)
    (hpost : (oracle 2).status_code ≠ 200) :
    (register_device oracle ctx device model nickname).requests =
      [⟨.get, ctx.api_url ++ "/devices" ++ "/" ++ device, none⟩,
       ⟨.delete, ctx.api_url ++ "/devices" ++ "/" ++ device, none⟩,
       ⟨.post, ctx.api_url ++ "/devices",
        some (Json.obj (devicePayload device model nickname))⟩] ∧
    (register_device oracle ctx device model nickname).error =
      some (failed_request_exception "Failed to register device" (oracle 2)) := by
  rw [register_device_eq_update oracle ctx device model nickname hget]
  exact ⟨finishDevice_requests _ _ _ _, finishDevice_error_of_ne _ _ _ _ hpost⟩

/-- C4 witness: a concrete run where the GET finds the device and the
recreating POST answers 500. -/
theorem register_device_update_not_atomic_witness :
    (register_device (updateOracle ⟨500, .rawBody "boom"⟩) exCtx "d" "m"
        none).requests =
      [⟨.get, exCtx.api_url ++ "/devices" ++ "/" ++ "d", none⟩,
       ⟨.delete, exCtx.api_url ++ "/devices" ++ "/" ++ "d", none⟩,
       ⟨.post, exCtx.api_url ++ "/devices",
        some (Json.obj (devicePayload "d" "m" none))⟩] ∧
    (register_device (updateOracle ⟨500, .rawBody "boom"⟩) exCtx "d" "m"
        none).error =
      some (failed_request_exception "Failed to register device"
              ⟨500, .rawBody "boom"⟩) :=
  register_device_update_not_atomic (updateOracle ⟨500, .rawBody "boom"⟩)
    exCtx "d" "m" none rfl (by decide)

/-- C5: the composed `register` command invokes the model upsert first and
the device upsert only after it completed without raising: on a model-upsert
exception the composed result is exactly that of the model upsert (no device
call happens), and otherwise the composed requests, echoes and logs are those
of the model upsert followed by those of the device upsert, the latter
answering from the same session after the calls of the model upsert. -/
theorem register_model_before_device (oracle : Nat → HttpResponse) (ctx : Ctx)
    (model type : String) (trait : List String)
    (manufacturer product_name : String) (description : Option String)
    (device : String) (nickname : Option String) :
    (∀ e : PyError,
      (register_model oracle ctx model type trait manufacturer product_name
          description).error = some e →
      register oracle ctx model type trait manufacturer product_name
          description device nickname =
        register_model oracle ctx model type trait manufacturer product_name
          description) ∧
    ((register_model oracle ctx model type trait manufacturer product_name
        description).error = none →
      register oracle ctx model type trait manufacturer product_name
          description device nickname =
        ⟨(register_model oracle ctx model type trait manufacturer product_name
            description).requests ++
          (register_device (fun n => oracle (n + (register_model oracle ctx
             model type trait manufacturer product_name
             description).requests.length)) ctx device model
             nickname).requests,
         (register_model oracle ctx model type trait manufacturer product_name
            description).echoed ++
          (register_device (fun n => oracle (n + (register_model oracle ctx
             model type trait manufacturer product_name
             description).requests.length)) ctx device model nickname).echoed,
         (register_model oracle ctx model type trait manufacturer product_name
            description).logged ++
          (register_device (fun n => oracle (n + (register_model oracle ctx
             model type trait manufacturer product_name
             description).requests.length)) ctx device model nickname).logged,
         (register_device (fun n => oracle (n + (register_model oracle ctx
            model type trait manufacturer product_name
            description).requests.length)) ctx device model
            nickname).error⟩) := by
  constructor
  · intro e he
    simp [register, he]
  · intro he
    simp [register, he]

/-- C5 witness: a model-upsert failure (unknown GET status) makes the
composed command stop at the model upsert. -/
theorem register_model_before_device_witness :
    register (constOracle 500 (.rawBody "x")) exCtx "m" "LIGHT" [] "man" "pn"
        none "d" none =
      register_model (constOracle 500 (.rawBody "x")) exCtx "m" "LIGHT" []
        "man" "pn" none :=
  (register_model_before_device (constOracle 500 (.rawBody "x")) exCtx "m"
      "LIGHT" [] "man" "pn" none "d" none).1
    (failed_request_exception "Unknown error occurred" ⟨500, .rawBody "x"⟩) rfl

/-- C6: project resolution: an explicit `--project` id is used unchanged and
the client-secret file is never consulted (the result does not depend on the
filesystem); otherwise the client-secret filename defaults to
`client_secret_<client_id>.json` unless a path was given, the file is parsed
and `installed.project_id` extracted; when no source yields a project id the
command fails with the configuration error instead of proceeding — the final
dichotomy conjunct makes this exhaustive: without `--project`, resolution
either fails with the configuration error or returns exactly the
`installed.project_id` value the file yields, so every failure shape
(missing file, unparsable file, wrong shape, missing `installed`, and
`installed` present but lacking `project_id`) is the configuration error. -/
theorem resolve_project_spec :
    (∀ (p : String) (cs : Option String) (cid : String)
       (fs : String → Option Body),
       resolve_project (some p) cs cid fs = .ok (.str p) none) ∧
    (∀ (p : String) (cs : Option String) (cid : String)
       (fs fs' : String → Option Body),
       resolve_project (some p) cs cid fs =
         resolve_project (some p) cs cid fs') ∧
    (∀ cid : String,
       clientSecretName none cid = "client_secret_" ++ cid ++ ".json") ∧
    (∀ path cid : String, clientSecretName (some path) cid = path) ∧
    (∀ (cs : Option String) (cid : String) (fs : String → Option Body)
       (fields inst : List (String × Json)) (v : Json),
       fs (clientSecretName cs cid) = some (.jsonBody (.obj fields)) →
       dget? fields "installed" = some (.obj inst) →
       dget? inst "project_id" = some v →
       resolve_project none cs cid fs = .ok v (some (clientSecretName cs cid))) ∧
    (∀ (cs : Option String) (cid : String) (fs : String → Option Body),
       fs (clientSecretName cs cid) = none →
       resolve_project none cs cid fs =
         .configError (clientSecretName cs cid)) ∧
    (∀ (cs : Option String) (cid : String) (fs : String → Option Body)
       (raw : String),
       fs (clientSecretName cs cid) = some (.rawBody raw) →
       resolve_project none cs cid fs =
         .configError (clientSecretName cs cid)) ∧
    (∀ (cs : Option String) (cid : String) (fs : String → Option Body)
       (fields : List (String × Json)),
       fs (clientSecretName cs cid) = some (.jsonBody (.obj fields)) →
       dget? fields "installed" = none →
       resolve_project none cs cid fs =
         .configError (clientSecretName cs cid)) ∧
    (∀ (cs : Option String) (cid : String) (fs : String → Option Body)
       (fields inst : List (String × Json)),
       fs (clientSecretName cs cid) = some (.jsonBody (.obj fields)) →
       dget? fields "installed" = some (.obj inst) →
       dget? inst "project_id" = none →
       resolve_project none cs cid fs =
         .configError (clientSecretName cs cid)) ∧
    (∀ (cs : Option String) (cid : String) (fs : String → Option Body),
       resolve_project none cs cid fs =
         .configError (clientSecretName cs cid) ∨
       ∃ (fields inst : List (String × Json)) (v : Json),
         fs (clientSecretName cs cid) = some (.jsonBody (.obj fields)) ∧
         dget? fields "installed" = some (.obj inst) ∧
         dget? inst "project_id" = some v ∧
         resolve_project none cs cid fs =
           .ok v (some (clientSecretName cs cid))) := by
  refine ⟨fun p cs cid fs => rfl, fun p cs cid fs fs' => rfl, fun cid => rfl,
    fun path cid => rfl, ?_, ?_, ?_, ?_, ?_, ?_⟩
  · intro cs cid fs fields inst v h1 h2 h3
    simp [resolve_project, h1, h2, h3]
  · intro cs cid fs h
    simp [resolve_project, h]
  · intro cs cid fs raw h
    simp [resolve_project, h]
  · intro cs cid fs fields h1 h2
    simp [resolve_project, h1, h2]
  · intro cs cid fs fields inst h1 h2 h3
    simp [resolve_project, h1, h2, h3]
  · intro cs cid fs
    cases hfs : fs (clientSecretName cs cid) with
    | none => exact Or.inl (by simp [resolve_project, hfs])
    | some b =>
      cases b with
      | rawBody raw => exact Or.inl (by simp [resolve_project, hfs])
      | jsonBody secret =>
        cases secret with
        | str s => exact Or.inl (by simp [resolve_project, hfs])
        | num n => exact Or.inl (by simp [resolve_project, hfs])
        | bool b => exact Or.inl (by simp [resolve_project, hfs])
        | null => exact Or.inl (by simp [resolve_project, hfs])
        | arr xs => exact Or.inl (by simp [resolve_project, hfs])
        | obj fields =>
          cases hin : dget? fields "installed" with
          | none => exact Or.inl (by simp [resolve_project, hfs, hin])
          | some v =>
            cases v with
            | str s => exact Or.inl (by simp [resolve_project, hfs, hin])
            | num n => exact Or.inl (by simp [resolve_project, hfs, hin])
            | bool b => exact Or.inl (by simp [resolve_project, hfs, hin])
            | null => exact Or.inl (by simp [resolve_project, hfs, hin])
            | arr xs => exact Or.inl (by simp [resolve_project, hfs, hin])
            | obj inst =>
              cases hpid : dget? inst "project_id" with
              | none =>
                exact Or.inl (by simp [resolve_project, hfs, hin, hpid])
              | some pv =>
                exact Or.inr ⟨fields, inst, pv, rfl, hin, hpid,
                  by simp [resolve_project, hfs, hin, hpid]⟩

/-- C6 witness: the default filename is derived from the client id and the
project id field extracted from the parsed file; a file whose `installed`
object lacks `project_id` yields the configuration error. -/
theorem resolve_project_spec_witness :
    resolve_project none none "cid"
        (fun _ => some (.jsonBody (.obj
          [("installed", .obj [("project_id", .str "proj")])]))) =
      .ok (.str "proj") (some ("client_secret_" ++ "cid" ++ ".json")) ∧
    resolve_project none none "cid"
        (fun _ => some (.jsonBody (.obj [("installed", .obj [])]))) =
      .configError ("client_secret_" ++ "cid" ++ ".json") :=
  ⟨resolve_project_spec.2.2.2.2.1 none "cid"
     (fun _ => some (.jsonBody (.obj
       [("installed", .obj [("project_id", .str "proj")])])))
     [("installed", .obj [("project_id", .str "proj")])]
     [("project_id", .str "proj")] (.str "proj") rfl rfl rfl,
   resolve_project_spec.2.2.2.2.2.2.2.2.1 none "cid"
     (fun _ => some (.jsonBody (.obj [("installed", .obj [])])))
     [("installed", .obj [])] [] rfl rfl rfl⟩

theorem modelPayload_fields (ctx : Ctx) (model type : String)
    (trait : List String) (manufacturer product_name : String)
    (description : Option String) :
    dget? (modelPayload ctx model type trait manufacturer product_name
        description) "device_type" =
      some (.str ("action.devices.types." ++ type)) ∧
    ((dget? (modelPayload ctx model type trait manufacturer product_name
        description) "traits").isSome = true ↔ trait ≠ []) ∧
    ((manifestField (modelPayload ctx model type trait manufacturer
        product_name description) "manufacturer").isSome = true ↔
      manufacturer ≠ "") ∧
    ((manifestField (modelPayload ctx model type trait manufacturer
        product_name description) "productName").isSome = true ↔
      product_name ≠ "") ∧
    ((manifestField (modelPayload ctx model type trait manufacturer
        product_name description) "deviceDescription").isSome = true ↔
      (∃ d, description = some d ∧ d ≠ "")) := by
  rcases description with _ | d
  · by_cases ht : trait = [] <;> by_cases hm : manufacturer = "" <;>
      by_cases hp : product_name = "" <;>
      simp [modelPayload, manifestField, setManifestField, dset, dget?,
        ht, hm, hp]
  · by_cases ht : trait = [] <;> by_cases hm : manufacturer = "" <;>
      by_cases hp : product_name = "" <;> by_cases hd : d = "" <;>
      simp [modelPayload, manifestField, setManifestField, dset, dget?,
        ht, hm, hp, hd]

/-- C10: the `device_type` field of the register-model payload is
`action.devices.types.` concatenated with the chosen type; `traits` is
present exactly when at least one `--trait` was given; each manifest field is
present exactly when the corresponding option is supplied non-empty; and the
same payload is carried unchanged by the mutating request of both the update
(PUT) and create (POST) paths. -/
theorem register_model_payload_spec (ctx : Ctx) (model type : String)
    (trait : List String) (manufacturer product_name : String)
    (description : Option String) :
    dget? (modelPayload ctx model type trait manufacturer product_name
        description) "device_type" =
      some (.str ("action.devices.types." ++ type)) ∧
    ((dget? (modelPayload ctx model type trait manufacturer product_name
        description) "traits").isSome = true ↔ trait ≠ []) ∧
    ((manifestField (modelPayload ctx model type trait manufacturer
        product_name description) "manufacturer").isSome = true ↔
      manufacturer ≠ "") ∧
    ((manifestField (modelPayload ctx model type trait manufacturer
        product_name description) "productName").isSome = true ↔
      product_name ≠ "") ∧
    ((manifestField (modelPayload ctx model type trait manufacturer
        product_name description) "deviceDescription").isSome = true ↔
      (∃ d, description = some d ∧ d ≠ "")) ∧
    (∀ oracle : Nat → HttpResponse, (oracle 0).status_code = 200 →
      (register_model oracle ctx model type trait manufacturer product_name
          description).requests.map (fun r => r.data) =
        [none, some (Json.obj (modelPayload ctx model type trait manufacturer
                                 product_name description))]) ∧
    (∀ oracle : Nat → HttpResponse,
      (oracle 0).status_code = 400 ∨ (oracle 0).status_code = 404 →
      (register_model oracle ctx model type trait manufacturer product_name
          description).requests.map (fun r => r.data) =
        [none, some (Json.obj (modelPayload ctx model type trait manufacturer
                                 product_name description))]) := by
  have h := modelPayload_fields ctx model type trait manufacturer product_name
    description
  refine ⟨h.1, h.2.1, h.2.2.1, h.2.2.2.1, h.2.2.2.2, ?_, ?_⟩
  · intro oracle h0
    rw [register_model_eq_update oracle ctx model type trait manufacturer
          product_name description h0, finishModel_requests]
    rfl
  · intro oracle h0
    rw [register_model_eq_create oracle ctx model type trait manufacturer
          product_name description h0, finishModel_requests]
    rfl

/-- C10 witness: the payload facts and the PUT payload at concrete
arguments. -/
theorem register_model_payload_spec_witness :
    dget? (modelPayload exCtx "m" "LIGHT" ["t1"] "man" "pn" (some "desc"))
        "device_type" = some (.str ("action.devices.types." ++ "LIGHT")) ∧
    (dget? (modelPayload exCtx "m" "LIGHT" ["t1"] "man" "pn" (some "desc"))
        "traits").isSome = true ∧
    (manifestField (modelPayload exCtx "m" "LIGHT" ["t1"] "man" "pn"
        (some "desc")) "deviceDescription").isSome = true ∧
    (register_model (constOracle 200 (.jsonBody (.obj []))) exCtx "m" "LIGHT"
        ["t1"] "man" "pn" (some "desc")).requests.map (fun r => r.data) =
      [none, some (Json.obj (modelPayload exCtx "m" "LIGHT" ["t1"] "man" "pn"
                               (some "desc")))] := by
  have h := register_model_payload_spec exCtx "m" "LIGHT" ["t1"] "man" "pn"
    (some "desc")
  exact ⟨h.1, h.2.1.mpr (by decide), h.2.2.2.2.1.mpr ⟨"desc", rfl, by decide⟩,
         h.2.2.2.2.2.1 (constOracle 200 (.jsonBody (.obj []))) rfl⟩

end Devicetool
